import Mathlib

/-!
Shallow embedding of the identifier-extraction pipeline of
`src/lit_agent/identifiers/api.py` (the orchestrator functions
`extract_identifiers_from_bibliography`, `extract_identifiers_from_url`).

The collaborating components (`JournalURLExtractor`, `WebScrapingExtractor`,
`PDFExtractor`, `CompositeValidator`) live in modules that are not part of the
sources; their behaviour is supplied abstractly through an `Env` record, and
the parts whose structure the claims need (`extract_from_urls`) are modelled
from the specification, as marked in their doc comments.

Python floats are modelled as rationals (the orchestrator only compares and
takes maxima of confidences), Python ints as `Int`, a Python exception raised
by a component as the `.error` case of an `Except String` result.
-/

namespace LitAgent

/-- The closed identifier-type enumeration (`IdentifierType` of `base.py`,
described in spec §3): `DOI`, `PMID`, `PMC`. -/
inductive IdentifierType
  | DOI
  | PMID
  | PMC
deriving DecidableEq, Repr

/-- One recognized identifier instance (`AcademicIdentifier` of `base.py`,
spec §3): type, normalized value, confidence, and the producing URL. -/
structure AcademicIdentifier where
  type : IdentifierType
  value : String
  confidence : ℚ
  source_url : String
deriving DecidableEq, Repr

/-- The statistics mapping carried by an extraction result (spec §3 lists its
required keys). -/
structure ExtractionStats where
  successful_extractions : Int
  failed_extractions : Int
  doi_count : Int
  pmid_count : Int
  pmc_count : Int
deriving DecidableEq, Repr

/-- Aggregate outcome of a batch run (`IdentifierExtractionResult` of
`base.py`, spec §3): ordered identifiers, failed URLs, statistics. -/
structure IdentifierExtractionResult where
  identifiers : List AcademicIdentifier
  failed_urls : List String
  extraction_stats : ExtractionStats
deriving DecidableEq, Repr

/-- Behaviour of the external components the orchestrator calls.
`patternExtract` is `JournalURLExtractor.extract_from_url` (total: spec §4.1,
the Pattern Extractor never raises for a well-formed string input).
`score` is `CompositeValidator(use_api, use_metapub).get_confidence_score`,
modelled from the spec (§4.4, §7): it never raises for a valid identifier
type, so it is a total function of the two constructor flags and the
identifier.  `is_pdf_url` is the pure classification predicate of
`PDFExtractor` (spec §9).  `pdfExtract` and `webExtract` are
`PDFExtractor.extract_from_url` and `WebScrapingExtractor.extract_from_url`;
either may raise, which the embedding records as an `.error` outcome. -/
structure Env where
  patternExtract : String → List AcademicIdentifier
  score : Bool → Bool → IdentifierType → String → ℚ
  is_pdf_url : String → Bool
  pdfExtract : String → Except String (List AcademicIdentifier)
  webExtract : String → Except String (List AcademicIdentifier)

/-- Number of identifiers of a given type in a list, as an `Int` (the stats
fields are Python ints). -/
def countType (t : IdentifierType) (ids : List AcademicIdentifier) : Int :=
  ((ids.countP (fun i => decide (i.type = t))) : Int)

/-- Modelled from the spec: `JournalURLExtractor.extract_from_urls`
(`extractors.py` is not among the sources).  Spec §4.1: the extractor is run
URL by URL, all matches are kept in discovery order, a URL yielding zero
identifiers is recorded into `failed_urls`; spec §3: the stats count
successfully and unsuccessfully extracted URLs and identifiers per type. -/
def extract_from_urls (pe : String → List AcademicIdentifier)
    (urls : List String) : IdentifierExtractionResult :=
  let ids := (urls.map pe).flatten
  { identifiers := ids
    failed_urls := urls.filter (fun u => (pe u).isEmpty)
    extraction_stats :=
      { successful_extractions := ((urls.filter (fun u => !(pe u).isEmpty)).length : Int)
        failed_extractions := ((urls.filter (fun u => (pe u).isEmpty)).length : Int)
        doi_count := countType .DOI ids
        pmid_count := countType .PMID ids
        pmc_count := countType .PMC ids } }

/-- The confidence-update loop of the validation step (api.py lines 55-60 and
139-143): every identifier's confidence becomes the maximum of its extraction
confidence and the validator's score for it. -/
def validateIdentifiers (score : IdentifierType → String → ℚ)
    (ids : List AcademicIdentifier) : List AcademicIdentifier :=
  ids.map (fun i => { i with confidence := max i.confidence (score i.type i.value) })

/-- api.py lines 49-60: if either validation flag is set, construct the
`CompositeValidator` for those flags and update every identifier's
confidence; otherwise do nothing. -/
def validationStep (env : Env) (use_api_validation use_metapub_validation : Bool)
    (result : IdentifierExtractionResult) : IdentifierExtractionResult :=
  if use_api_validation || use_metapub_validation then
    let ids := validateIdentifiers
      (env.score use_api_validation use_metapub_validation) result.identifiers
    { result with identifiers := ids }
  else result

/-- api.py lines 74-78: choose the extractor based on the URL type —
`PDFExtractor` when `is_pdf_url` holds, else `WebScrapingExtractor`. -/
def chooseAndRun (env : Env) (url : String) :
    Except String (List AcademicIdentifier) :=
  if env.is_pdf_url url then env.pdfExtract url else env.webExtract url

/-- The accumulator of the Phase-2 loop: `phase2_identifiers`,
`successful_urls`, and the stats being mutated in place. -/
abbrev Phase2Acc := List AcademicIdentifier × List String × ExtractionStats

/-- One iteration of the Phase-2 loop body (api.py lines 73-88) on the pure
side: an exception from the chosen extractor (`except Exception: pass`) or an
empty identifier list leaves the accumulator unchanged; a non-empty list is
appended, the URL recorded for later removal, and the stats updated. -/
def phase2Step (env : Env) (acc : Phase2Acc) (url : String) : Phase2Acc :=
  match chooseAndRun env url with
  | .error _ => acc
  | .ok ids =>
    if ids.isEmpty then acc
    else
      (acc.1 ++ ids, acc.2.1 ++ [url],
        { acc.2.2 with
          successful_extractions := acc.2.2.successful_extractions + 1
          failed_extractions := acc.2.2.failed_extractions - 1 })

/-- api.py lines 72-88: the Phase-2 sweep over the snapshot
(`result.failed_urls.copy()`), folding `phase2Step` left to right. -/
def phase2Fold (env : Env) (snapshot : List String) (acc : Phase2Acc) : Phase2Acc :=
  snapshot.foldl (phase2Step env) acc

/-- api.py lines 90-93: after the sweep, remove each successful URL from
`failed_urls`; Python `list.remove` deletes the first occurrence and is
guarded by a membership test. -/
def removeSuccessful (failed : List String) (succ : List String) : List String :=
  succ.foldl (fun f u => if u ∈ f then f.erase u else f) failed

/-- api.py lines 98-105: bump the per-type count for each Phase-2
identifier. -/
def addTypeCounts (stats : ExtractionStats) (ids : List AcademicIdentifier) :
    ExtractionStats :=
  ids.foldl
    (fun s i =>
      match i.type with
      | .DOI => { s with doi_count := s.doi_count + 1 }
      | .PMID => { s with pmid_count := s.pmid_count + 1 }
      | .PMC => { s with pmc_count := s.pmc_count + 1 })
    stats

/-- api.py lines 11-107, `extract_identifiers_from_bibliography`: Phase 1,
the optional validation step, and — when web scraping is requested and
Phase 1 left failed URLs — the Phase-2 sweep followed by the deferred
removals, the append of the Phase-2 identifiers, and the type-count update. -/
def extract_identifiers_from_bibliography (env : Env) (urls : List String)
    (use_web_scraping use_api_validation use_metapub_validation : Bool) :
    IdentifierExtractionResult :=
  let result := extract_from_urls env.patternExtract urls
  let result := validationStep env use_api_validation use_metapub_validation result
  if use_web_scraping && !result.failed_urls.isEmpty then
    let swept := phase2Fold env result.failed_urls ([], [], result.extraction_stats)
    { identifiers := result.identifiers ++ swept.1
      failed_urls := removeSuccessful result.failed_urls swept.2.1
      extraction_stats := addTypeCounts swept.2.2 swept.1 }
  else result

/-- The Phase-2 loop body in the exception monad: exactly the statements of
api.py lines 74-85, where the chosen extractor's call may throw. -/
def phase2BodyM (env : Env) (acc : Phase2Acc) (url : String) :
    Except String Phase2Acc := do
  let ids ← chooseAndRun env url
  if ids.isEmpty then return acc
  else
    return (acc.1 ++ ids, acc.2.1 ++ [url],
      { acc.2.2 with
        successful_extractions := acc.2.2.successful_extractions + 1
        failed_extractions := acc.2.2.failed_extractions - 1 })

/-- The Phase-2 sweep in the exception monad, with the `try/except
Exception: pass` of api.py lines 73-88 placed exactly where the source has
it: around each per-URL body, restoring the accumulator on error. -/
def phase2FoldM (env : Env) : List String → Phase2Acc → Except String Phase2Acc
  | [], acc => .ok acc
  | url :: rest, acc => do
    let acc' ← Except.tryCatch (phase2BodyM env acc url) (fun _ => .ok acc)
    phase2FoldM env rest acc'

/-- `extract_identifiers_from_bibliography` written in the exception monad:
any uncaught exception of a component call would surface as an `.error`
result here. -/
def extractBibliographyM (env : Env) (urls : List String)
    (use_web_scraping use_api_validation use_metapub_validation : Bool) :
    Except String IdentifierExtractionResult := do
  let result := extract_from_urls env.patternExtract urls
  let result := validationStep env use_api_validation use_metapub_validation result
  if use_web_scraping && !result.failed_urls.isEmpty then
    let swept ← phase2FoldM env result.failed_urls ([], [], result.extraction_stats)
    return { identifiers := result.identifiers ++ swept.1
             failed_urls := removeSuccessful result.failed_urls swept.2.1
             extraction_stats := addTypeCounts swept.2.2 swept.1 }
  else return result

/-- api.py lines 110-145, `extract_identifiers_from_url`: single-URL Phase-1
extraction, with the validation loop run only when a validation flag is set
and the identifier list is non-empty (Python truthiness of the list). -/
def extract_identifiers_from_url (env : Env) (url : String)
    (use_api_validation use_metapub_validation : Bool) :
    List AcademicIdentifier :=
  let identifiers := env.patternExtract url
  if (use_api_validation || use_metapub_validation) && !identifiers.isEmpty then
    validateIdentifiers (env.score use_api_validation use_metapub_validation)
      identifiers
  else identifiers

/-- The identifiers Phase 2 discovers for a snapshot, read off directly from
the extractor outcomes: the concatenation, in snapshot order, of each
successful attempt's output (an exception or an empty result contributes
nothing). -/
def phase2Found (env : Env) (snapshot : List String) : List AcademicIdentifier :=
  (snapshot.map (fun u =>
    match chooseAndRun env u with
    | .ok ids => ids
    | .error _ => [])).flatten

/-- The result produced by Phase 1 of the batch pipeline (api.py line 46). -/
abbrev phase1Result (env : Env) (urls : List String) : IdentifierExtractionResult :=
  extract_from_urls env.patternExtract urls

/-- The batch result after the optional validation step (api.py lines 46-60). -/
abbrev afterValidation (env : Env) (av mv : Bool) (urls : List String) :
    IdentifierExtractionResult :=
  validationStep env av mv (phase1Result env urls)

/-- The accumulator produced by the Phase-2 sweep of the batch pipeline, when
it runs (api.py lines 68-88). -/
abbrev bibSweep (env : Env) (av mv : Bool) (urls : List String) : Phase2Acc :=
  phase2Fold env (afterValidation env av mv urls).failed_urls
    ([], [], (afterValidation env av mv urls).extraction_stats)

/-- A concrete environment for evaluating the pipeline on closed inputs:
the pattern extractor finds nothing, no URL is classified as a PDF, and both
Phase-2 extractors raise. -/
def envW : Env :=
  { patternExtract := fun _ => []
    score := fun _ _ _ _ => 1
    is_pdf_url := fun _ => false
    pdfExtract := fun _ => .error "fetch failed"
    webExtract := fun _ => .error "fetch failed" }

/-- A concrete extraction result used to instantiate frame theorems. -/
def resW : IdentifierExtractionResult :=
  { identifiers := [⟨.DOI, "10.1126/science.abm5224", 1/2, "https://a.example"⟩]
    failed_urls := ["https://b.example"]
    extraction_stats := ⟨1, 1, 1, 0, 0⟩ }

/-! ### Basic frame lemmas for the validation step -/

theorem validationStep_failed_urls (env : Env) (av mv : Bool)
    (r : IdentifierExtractionResult) :
    (validationStep env av mv r).failed_urls = r.failed_urls := by
  unfold validationStep; split <;> rfl

theorem validationStep_stats (env : Env) (av mv : Bool)
    (r : IdentifierExtractionResult) :
    (validationStep env av mv r).extraction_stats = r.extraction_stats := by
  unfold validationStep; split <;> rfl

theorem validationStep_identifiers (env : Env) (av mv : Bool)
    (r : IdentifierExtractionResult) :
    (validationStep env av mv r).identifiers =
      if av || mv then
        validateIdentifiers (env.score av mv) r.identifiers
      else r.identifiers := by
  unfold validationStep; split <;> simp_all

/-! ### The monadic and the pure Phase-2 sweep agree -/

theorem phase2BodyM_tryCatch (env : Env) (acc : Phase2Acc) (url : String) :
    Except.tryCatch (phase2BodyM env acc url) (fun _ => Except.ok acc)
      = Except.ok (phase2Step env acc url) := by
  unfold phase2BodyM phase2Step
  cases h : chooseAndRun env url with
  | error e => simp [h, Except.tryCatch, bind, Except.bind]
  | ok ids =>
    cases hi : ids.isEmpty <;>
      simp [h, hi, Except.tryCatch, bind, Except.bind, pure, Except.pure]

theorem phase2FoldM_eq (env : Env) (l : List String) (acc : Phase2Acc) :
    phase2FoldM env l acc = Except.ok (phase2Fold env l acc) := by
  induction l generalizing acc with
  | nil => rfl
  | cons u rest ih =>
    rw [phase2FoldM, phase2BodyM_tryCatch]
    simp only [bind, Except.bind, ih, phase2Fold, List.foldl_cons]

theorem extractBibliographyM_eq (env : Env) (urls : List String) (ws av mv : Bool) :
    extractBibliographyM env urls ws av mv
      = Except.ok (extract_identifiers_from_bibliography env urls ws av mv) := by
  unfold extractBibliographyM extract_identifiers_from_bibliography
  dsimp only
  split
  · simp only [phase2FoldM_eq, bind, Except.bind, pure, Except.pure]
  · rfl

/-! ### Characterization of one Phase-2 loop iteration by the attempt's
outcome -/

theorem phase2Step_of_error {env : Env} {url : String} {e : String}
    (h : chooseAndRun env url = .error e) (acc : Phase2Acc) :
    phase2Step env acc url = acc := by
  simp [phase2Step, h]

theorem phase2Step_of_empty {env : Env} {url : String}
    {ids : List AcademicIdentifier}
    (h : chooseAndRun env url = .ok ids) (hi : ids.isEmpty = true)
    (acc : Phase2Acc) :
    phase2Step env acc url = acc := by
  simp [phase2Step, h, hi]

theorem phase2Step_of_ok {env : Env} {url : String}
    {ids : List AcademicIdentifier}
    (h : chooseAndRun env url = .ok ids) (hi : ids.isEmpty = false)
    (acc : Phase2Acc) :
    phase2Step env acc url =
      (acc.1 ++ ids, acc.2.1 ++ [url],
        { acc.2.2 with
          successful_extractions := acc.2.2.successful_extractions + 1
          failed_extractions := acc.2.2.failed_extractions - 1 }) := by
  simp [phase2Step, h, hi]

/-! ### Invariants of one Phase-2 loop iteration and of the whole sweep -/

theorem phase2Step_sum (env : Env) (acc : Phase2Acc) (url : String) :
    (phase2Step env acc url).2.2.successful_extractions
        + (phase2Step env acc url).2.2.failed_extractions
      = acc.2.2.successful_extractions + acc.2.2.failed_extractions := by
  unfold phase2Step
  cases h : chooseAndRun env url with
  | error e => rfl
  | ok ids => cases hi : ids.isEmpty <;> simp [hi]

theorem phase2Fold_sum (env : Env) (l : List String) (acc : Phase2Acc) :
    (phase2Fold env l acc).2.2.successful_extractions
        + (phase2Fold env l acc).2.2.failed_extractions
      = acc.2.2.successful_extractions + acc.2.2.failed_extractions := by
  induction l generalizing acc with
  | nil => rfl
  | cons u rest ih =>
    simp only [phase2Fold, List.foldl_cons] at *
    rw [ih, phase2Step_sum]

theorem phase2Step_counts (env : Env) (acc : Phase2Acc) (url : String) :
    (phase2Step env acc url).2.2.doi_count = acc.2.2.doi_count
    ∧ (phase2Step env acc url).2.2.pmid_count = acc.2.2.pmid_count
    ∧ (phase2Step env acc url).2.2.pmc_count = acc.2.2.pmc_count := by
  unfold phase2Step
  cases h : chooseAndRun env url with
  | error e => exact ⟨rfl, rfl, rfl⟩
  | ok ids => cases hi : ids.isEmpty <;> simp [hi]

theorem phase2Fold_counts (env : Env) (l : List String) (acc : Phase2Acc) :
    (phase2Fold env l acc).2.2.doi_count = acc.2.2.doi_count
    ∧ (phase2Fold env l acc).2.2.pmid_count = acc.2.2.pmid_count
    ∧ (phase2Fold env l acc).2.2.pmc_count = acc.2.2.pmc_count := by
  induction l generalizing acc with
  | nil => exact ⟨rfl, rfl, rfl⟩
  | cons u rest ih =>
    simp only [phase2Fold, List.foldl_cons] at *
    obtain ⟨h1, h2, h3⟩ := ih (phase2Step env acc u)
    obtain ⟨g1, g2, g3⟩ := phase2Step_counts env acc u
    exact ⟨h1.trans g1, h2.trans g2, h3.trans g3⟩

theorem phase2Fold_fst (env : Env) (l : List String) (acc : Phase2Acc) :
    (phase2Fold env l acc).1 = acc.1 ++ phase2Found env l := by
  induction l generalizing acc with
  | nil => simp [phase2Fold, phase2Found]
  | cons u rest ih =>
    simp only [phase2Fold, List.foldl_cons] at *
    rw [ih]
    simp only [phase2Found, List.map_cons, List.flatten_cons, phase2Step]
    cases h : chooseAndRun env u with
    | error e => simp
    | ok ids =>
      cases hi : ids.isEmpty with
      | true => simp [List.isEmpty_iff.mp hi]
      | false => simp [hi]

theorem phase2Fold_succ_sublist (env : Env) (l : List String) (acc : Phase2Acc) :
    ∃ s, (phase2Fold env l acc).2.1 = acc.2.1 ++ s ∧ List.Sublist s l := by
  induction l generalizing acc with
  | nil => exact ⟨[], by simp [phase2Fold], List.Sublist.refl []⟩
  | cons u rest ih =>
    simp only [phase2Fold, List.foldl_cons] at *
    obtain ⟨s, hs, hsub⟩ := ih (phase2Step env acc u)
    cases h : chooseAndRun env u with
    | error e =>
      exact ⟨s, by rw [hs]; simp [phase2Step_of_error h], hsub.cons u⟩
    | ok ids =>
      cases hi : ids.isEmpty with
      | true =>
        exact ⟨s, by rw [hs]; simp [phase2Step_of_empty h hi], hsub.cons u⟩
      | false =>
        exact ⟨u :: s, by rw [hs]; simp [phase2Step_of_ok h hi], hsub.cons₂ u⟩

theorem phase2Fold_succ_mem (env : Env) (l : List String) (acc : Phase2Acc)
    {u : String} (hu : u ∈ (phase2Fold env l acc).2.1) :
    u ∈ acc.2.1 ∨ ∃ ids, chooseAndRun env u = .ok ids ∧ ids.isEmpty = false := by
  induction l generalizing acc with
  | nil => exact Or.inl hu
  | cons v rest ih =>
    simp only [phase2Fold, List.foldl_cons] at hu
    rcases ih (phase2Step env acc v) hu with hmem | hok
    · cases h : chooseAndRun env v with
      | error e =>
        simp only [phase2Step_of_error h] at hmem
        exact Or.inl hmem
      | ok ids =>
        cases hi : ids.isEmpty with
        | true =>
          simp only [phase2Step_of_empty h hi] at hmem
          exact Or.inl hmem
        | false =>
          simp only [phase2Step_of_ok h hi] at hmem
          simp only [List.mem_append, List.mem_singleton] at hmem
          rcases hmem with hmem | rfl
          · exact Or.inl hmem
          · exact Or.inr ⟨ids, h, hi⟩
    · exact Or.inr hok

/-! ### The deferred removal of successful URLs -/

theorem removeSuccessful_subset (succ : List String) (failed : List String) :
    removeSuccessful failed succ ⊆ failed := by
  induction succ generalizing failed with
  | nil => exact fun a h => h
  | cons v rest ih =>
    intro a ha
    simp only [removeSuccessful, List.foldl_cons] at ha
    by_cases hv : v ∈ failed
    · simp only [if_pos hv] at ha
      exact List.erase_subset _ _ (ih (failed.erase v) ha)
    · simp only [if_neg hv] at ha
      exact ih failed ha

theorem mem_removeSuccessful_of_not_mem {u : String} (succ failed : List String)
    (hns : u ∉ succ) (hm : u ∈ failed) : u ∈ removeSuccessful failed succ := by
  induction succ generalizing failed with
  | nil => exact hm
  | cons v rest ih =>
    simp only [List.mem_cons, not_or] at hns
    simp only [removeSuccessful, List.foldl_cons]
    by_cases hv : v ∈ failed
    · simp only [if_pos hv]
      exact ih (failed.erase v) hns.2 ((List.mem_erase_of_ne hns.1).mpr hm)
    · simp only [if_neg hv]
      exact ih failed hns.2 hm

theorem not_mem_removeSuccessful {u : String} (succ failed : List String)
    (hd : failed.Nodup) (hs : u ∈ succ) : u ∉ removeSuccessful failed succ := by
  induction succ generalizing failed with
  | nil => cases hs
  | cons v rest ih =>
    simp only [removeSuccessful, List.foldl_cons]
    rcases List.mem_cons.mp hs with rfl | hs
    · by_cases hv : u ∈ failed
      · simp only [if_pos hv]
        intro hmem
        exact hd.not_mem_erase (removeSuccessful_subset rest (failed.erase u) hmem)
      · simp only [if_neg hv]
        intro hmem
        exact hv (removeSuccessful_subset rest failed hmem)
    · by_cases hv : v ∈ failed
      · simp only [if_pos hv]
        exact ih (failed.erase v) (hd.erase v) hs
      · simp only [if_neg hv]
        exact ih failed hd hs

/-! ### Type counts -/

theorem countType_append (t : IdentifierType) (a b : List AcademicIdentifier) :
    countType t (a ++ b) = countType t a + countType t b := by
  unfold countType
  rw [List.countP_append]
  push_cast
  ring

theorem countType_validate (t : IdentifierType)
    (score : IdentifierType → String → ℚ) (ids : List AcademicIdentifier) :
    countType t (validateIdentifiers score ids) = countType t ids := by
  unfold countType validateIdentifiers
  rw [List.countP_map]
  rfl

theorem addTypeCounts_fields (stats : ExtractionStats)
    (ids : List AcademicIdentifier) :
    addTypeCounts stats ids =
      { stats with
        doi_count := stats.doi_count + countType .DOI ids
        pmid_count := stats.pmid_count + countType .PMID ids
        pmc_count := stats.pmc_count + countType .PMC ids } := by
  induction ids generalizing stats with
  | nil => simp [addTypeCounts, countType]
  | cons i rest ih =>
    rw [show addTypeCounts stats (i :: rest)
        = addTypeCounts
            (match i.type with
              | .DOI => { stats with doi_count := stats.doi_count + 1 }
              | .PMID => { stats with pmid_count := stats.pmid_count + 1 }
              | .PMC => { stats with pmc_count := stats.pmc_count + 1 })
            rest from rfl]
    cases ht : i.type <;>
      simp [ht, ih, countType, List.countP_cons, ExtractionStats.mk.injEq] <;>
        omega

/-! ### Phase 1 (modelled from the spec) -/

theorem extract_from_urls_sum (pe : String → List AcademicIdentifier)
    (urls : List String) :
    (extract_from_urls pe urls).extraction_stats.successful_extractions
        + (extract_from_urls pe urls).extraction_stats.failed_extractions
      = (urls.length : Int) := by
  show ((urls.filter (fun u => !(pe u).isEmpty)).length : Int)
      + ((urls.filter (fun u => (pe u).isEmpty)).length : Int) = (urls.length : Int)
  have : (urls.filter (fun u => !(pe u).isEmpty)).length
      + (urls.filter (fun u => (pe u).isEmpty)).length = urls.length := by
    induction urls with
    | nil => rfl
    | cons u rest ih =>
      cases h : (pe u).isEmpty <;> simp [List.filter_cons, h] <;> omega
  omega

theorem extract_from_urls_nodup (pe : String → List AcademicIdentifier)
    (urls : List String) (h : urls.Nodup) :
    (extract_from_urls pe urls).failed_urls.Nodup :=
  (List.filter_sublist urls).nodup h

theorem extract_from_urls_doi (pe : String → List AcademicIdentifier)
    (urls : List String) :
    (extract_from_urls pe urls).extraction_stats.doi_count
      = countType .DOI (extract_from_urls pe urls).identifiers := rfl

theorem extract_from_urls_pmid (pe : String → List AcademicIdentifier)
    (urls : List String) :
    (extract_from_urls pe urls).extraction_stats.pmid_count
      = countType .PMID (extract_from_urls pe urls).identifiers := rfl

theorem extract_from_urls_pmc (pe : String → List AcademicIdentifier)
    (urls : List String) :
    (extract_from_urls pe urls).extraction_stats.pmc_count
      = countType .PMC (extract_from_urls pe urls).identifiers := rfl

/-! ### Pointwise behaviour of the validation loop -/

theorem validateIdentifiers_pointwise (score : IdentifierType → String → ℚ)
    (ids : List AcademicIdentifier) :
    List.Forall₂
      (fun pre post =>
        post.confidence = max pre.confidence (score pre.type pre.value)
        ∧ pre.confidence ≤ post.confidence
        ∧ post.type = pre.type
        ∧ post.value = pre.value
        ∧ post.source_url = pre.source_url)
      ids (validateIdentifiers score ids) := by
  induction ids with
  | nil => exact List.Forall₂.nil
  | cons i rest ih => exact List.Forall₂.cons ⟨rfl, le_max_left _ _, rfl, rfl, rfl⟩ ih

theorem countType_validationStep (t : IdentifierType) (env : Env)
    (av mv : Bool) (r : IdentifierExtractionResult) :
    countType t (validationStep env av mv r).identifiers
      = countType t r.identifiers := by
  rw [validationStep_identifiers]
  split
  · exact countType_validate t _ _
  · rfl

/-! ### The two shapes of the batch result, by the Phase-2 condition -/

theorem extractBib_pos (env : Env) (urls : List String) (ws av mv : Bool)
    (h : (ws && !(afterValidation env av mv urls).failed_urls.isEmpty) = true) :
    extract_identifiers_from_bibliography env urls ws av mv
      = { identifiers :=
            (afterValidation env av mv urls).identifiers ++ (bibSweep env av mv urls).1
          failed_urls :=
            removeSuccessful (afterValidation env av mv urls).failed_urls
              (bibSweep env av mv urls).2.1
          extraction_stats :=
            addTypeCounts (bibSweep env av mv urls).2.2 (bibSweep env av mv urls).1 } := by
  unfold extract_identifiers_from_bibliography
  dsimp only
  rw [if_pos h]

theorem extractBib_neg (env : Env) (urls : List String) (ws av mv : Bool)
    (h : (ws && !(afterValidation env av mv urls).failed_urls.isEmpty) = false) :
    extract_identifiers_from_bibliography env urls ws av mv
      = afterValidation env av mv urls := by
  unfold extract_identifiers_from_bibliography
  dsimp only
  rw [if_neg (by simp only [h]; exact Bool.false_ne_true)]

/-! ## The claims -/

/-- C1: Confidence is monotone non-decreasing across pipeline stages: the
validation step shared by `extract_identifiers_from_bibliography` and
`extract_identifiers_from_url` updates each identifier's confidence to the
maximum of its extraction confidence and the validator's score, so each
identifier satisfies `post.confidence >= pre.confidence`, and no stage —
in particular not the batch pipeline through validation, nor the single-URL
pipeline — ever lowers a confidence value. -/
theorem C1_confidence_monotone (score : IdentifierType → String → ℚ)
    (ids : List AcademicIdentifier) (env : Env) (url : String)
    (urls : List String) (ws av mv : Bool) :
    List.Forall₂
      (fun pre post =>
        post.confidence = max pre.confidence (score pre.type pre.value)
        ∧ pre.confidence ≤ post.confidence)
      ids (validateIdentifiers score ids)
    ∧ List.Forall₂ (fun pre post => pre.confidence ≤ post.confidence)
        (env.patternExtract url) (extract_identifiers_from_url env url av mv)
    ∧ ∃ appended,
        (extract_identifiers_from_bibliography env urls ws av mv).identifiers
          = (afterValidation env av mv urls).identifiers ++ appended
        ∧ List.Forall₂ (fun pre post => pre.confidence ≤ post.confidence)
            (phase1Result env urls).identifiers
            (afterValidation env av mv urls).identifiers := by
  have hmono : ∀ (s : IdentifierType → String → ℚ) (l : List AcademicIdentifier),
      List.Forall₂ (fun pre post => pre.confidence ≤ post.confidence)
        l (validateIdentifiers s l) :=
    fun s l => (validateIdentifiers_pointwise s l).imp (fun _ _ h => h.2.1)
  refine ⟨(validateIdentifiers_pointwise score ids).imp (fun _ _ h => ⟨h.1, h.2.1⟩),
    ?_, ?_⟩
  · unfold extract_identifiers_from_url
    dsimp only
    split
    · exact hmono _ _
    · exact List.forall₂_same.mpr (fun x _ => le_refl _)
  · have hval : List.Forall₂ (fun pre post => pre.confidence ≤ post.confidence)
        (phase1Result env urls).identifiers
        (afterValidation env av mv urls).identifiers := by
      rw [validationStep_identifiers]
      split
      · exact hmono _ _
      · exact List.forall₂_same.mpr (fun x _ => le_refl _)
    cases hc : (ws && !(afterValidation env av mv urls).failed_urls.isEmpty) with
    | true =>
      exact ⟨(bibSweep env av mv urls).1,
        by rw [extractBib_pos env urls ws av mv hc], hval⟩
    | false =>
      exact ⟨[],
        by rw [extractBib_neg env urls ws av mv hc, List.append_nil], hval⟩

/-- C2: `successful_extractions + failed_extractions` equals the number of
input URLs immediately after Phase 1 and is preserved by the whole batch
pipeline; a URL recovered in Phase 2 increments `successful_extractions` and
decrements `failed_extractions` by exactly one, leaving the sum unchanged. -/
theorem C2_stats_sum_invariant (env : Env) (urls : List String) (ws av mv : Bool) :
    ((phase1Result env urls).extraction_stats.successful_extractions
        + (phase1Result env urls).extraction_stats.failed_extractions
      = (urls.length : Int))
    ∧ ((extract_identifiers_from_bibliography env urls ws av mv).extraction_stats.successful_extractions
        + (extract_identifiers_from_bibliography env urls ws av mv).extraction_stats.failed_extractions
      = (urls.length : Int))
    ∧ ∀ (acc : Phase2Acc) (url : String) (ids : List AcademicIdentifier),
        chooseAndRun env url = .ok ids → ids.isEmpty = false →
          (phase2Step env acc url).2.2.successful_extractions
              = acc.2.2.successful_extractions + 1
          ∧ (phase2Step env acc url).2.2.failed_extractions
              = acc.2.2.failed_extractions - 1 := by
  refine ⟨extract_from_urls_sum _ _, ?_, ?_⟩
  · cases hc : (ws && !(afterValidation env av mv urls).failed_urls.isEmpty) with
    | true =>
      rw [extractBib_pos env urls ws av mv hc]
      dsimp only
      rw [addTypeCounts_fields]
      dsimp only
      have h := phase2Fold_sum env (afterValidation env av mv urls).failed_urls
        ([], [], (afterValidation env av mv urls).extraction_stats)
      dsimp only at h
      rw [h, validationStep_stats]
      exact extract_from_urls_sum _ _
    | false =>
      rw [extractBib_neg env urls ws av mv hc, validationStep_stats]
      exact extract_from_urls_sum _ _
  · intro acc url ids h hi
    rw [phase2Step_of_ok h hi]
    exact ⟨rfl, rfl⟩

/-- C5: For every well-formed input, the batch call
`extract_identifiers_from_bibliography` returns a result and never raises:
run in the exception monad, where any uncaught component exception would
surface as an `.error`, it always evaluates to `.ok` of the result —
including when validation is enabled (the validator never raises for the
valid identifier types the pipeline feeds it). -/
theorem C5_batch_never_raises (env : Env) (urls : List String) (ws av mv : Bool) :
    extractBibliographyM env urls ws av mv
      = Except.ok (extract_identifiers_from_bibliography env urls ws av mv) :=
  extractBibliographyM_eq env urls ws av mv

/-- C3: During Phase 2 of the batch pipeline, a per-URL failure — an
exception raised by the chosen Page-Scraper/PDF extractor — is swallowed:
that URL's iteration leaves the accumulator (identifiers, recovered URLs,
stats) unchanged, the sweep continues over the remaining snapshot URLs, the
URL stays in `failed_urls`, and no Phase-2 failure aborts the batch or
propagates to the caller (the monadic pipeline still returns `.ok`). -/
theorem C3_phase2_failure_swallowed (env : Env) (url e : String)
    (hfail : chooseAndRun env url = .error e) :
    (∀ acc, phase2Step env acc url = acc)
    ∧ (∀ rest acc, phase2Fold env (url :: rest) acc = phase2Fold env rest acc)
    ∧ (∀ urls ws av mv, extractBibliographyM env urls ws av mv
        = Except.ok (extract_identifiers_from_bibliography env urls ws av mv))
    ∧ (∀ urls av mv, url ∈ (afterValidation env av mv urls).failed_urls →
        url ∈ (extract_identifiers_from_bibliography env urls true av mv).failed_urls) := by
  refine ⟨phase2Step_of_error hfail, ?_,
    fun urls ws av mv => extractBibliographyM_eq env urls ws av mv, ?_⟩
  · intro rest acc
    simp only [phase2Fold, List.foldl_cons, phase2Step_of_error hfail]
  · intro urls av mv hmem
    cases hc : (true && !(afterValidation env av mv urls).failed_urls.isEmpty) with
    | false => rw [extractBib_neg env urls true av mv hc]; exact hmem
    | true =>
      rw [extractBib_pos env urls true av mv hc]
      refine mem_removeSuccessful_of_not_mem _ _ ?_ hmem
      intro hin
      rcases phase2Fold_succ_mem env _ _ hin with h0 | ⟨ids, hok, _⟩
      · simp at h0
      · rw [hfail] at hok; cases hok

/-- Witness for C3: in `envW` every Phase-2 attempt raises, and the
conclusions hold at the concrete URL `"u"`. -/
theorem C3_phase2_failure_swallowed_witness :
    chooseAndRun envW "u" = Except.error "fetch failed"
    ∧ ((∀ acc, phase2Step envW acc "u" = acc)
      ∧ (∀ rest acc, phase2Fold envW ("u" :: rest) acc = phase2Fold envW rest acc)
      ∧ (∀ urls ws av mv, extractBibliographyM envW urls ws av mv
          = Except.ok (extract_identifiers_from_bibliography envW urls ws av mv))
      ∧ (∀ urls av mv, "u" ∈ (afterValidation envW av mv urls).failed_urls →
          "u" ∈ (extract_identifiers_from_bibliography envW urls true av mv).failed_urls)) :=
  ⟨rfl, C3_phase2_failure_swallowed envW "u" "fetch failed" rfl⟩

/-- C6: When either validation flag is set, the validation step of the batch
pipeline only adjusts the confidence field of already-known identifiers: it
never adds or removes identifiers (the lengths agree), never changes a type,
value or source URL (pointwise), and leaves `failed_urls` and
`extraction_stats` unchanged. -/
theorem C6_validation_frame (env : Env) (av mv : Bool)
    (r : IdentifierExtractionResult) (h : (av || mv) = true) :
    (validationStep env av mv r).failed_urls = r.failed_urls
    ∧ (validationStep env av mv r).extraction_stats = r.extraction_stats
    ∧ (validationStep env av mv r).identifiers.length = r.identifiers.length
    ∧ List.Forall₂
        (fun pre post => post.type = pre.type ∧ post.value = pre.value
          ∧ post.source_url = pre.source_url)
        r.identifiers (validationStep env av mv r).identifiers := by
  refine ⟨validationStep_failed_urls env av mv r, validationStep_stats env av mv r,
    ?_, ?_⟩
  · rw [validationStep_identifiers, if_pos h]
    simp [validateIdentifiers]
  · rw [validationStep_identifiers, if_pos h]
    exact (validateIdentifiers_pointwise _ _).imp
      (fun _ _ hp => ⟨hp.2.2.1, hp.2.2.2.1, hp.2.2.2.2⟩)

/-- Witness for C6: the frame conditions hold at the concrete result `resW`
with `use_api_validation := true`. -/
theorem C6_validation_frame_witness :
    ((true || false) = true)
    ∧ ((validationStep envW true false resW).failed_urls = resW.failed_urls
      ∧ (validationStep envW true false resW).extraction_stats = resW.extraction_stats
      ∧ (validationStep envW true false resW).identifiers.length = resW.identifiers.length
      ∧ List.Forall₂
          (fun pre post => post.type = pre.type ∧ post.value = pre.value
            ∧ post.source_url = pre.source_url)
          resW.identifiers (validationStep envW true false resW).identifiers) :=
  ⟨rfl, C6_validation_frame envW true false resW rfl⟩

/-- C7: Phase 2 runs only when `use_web_scraping` is set and Phase 1 left
failed URLs — otherwise the batch result is exactly the validated Phase-1
result — and each attempted URL runs exactly one extractor, dispatched by
the PDF classification predicate. -/
theorem C7_phase2_gating (env : Env) (urls : List String) (av mv ws : Bool)
    (url : String) :
    (extract_identifiers_from_bibliography env urls false av mv
        = afterValidation env av mv urls)
    ∧ ((phase1Result env urls).failed_urls = [] →
        extract_identifiers_from_bibliography env urls ws av mv
          = afterValidation env av mv urls)
    ∧ (env.is_pdf_url url = true → chooseAndRun env url = env.pdfExtract url)
    ∧ (env.is_pdf_url url = false → chooseAndRun env url = env.webExtract url) := by
  refine ⟨extractBib_neg env urls false av mv (by simp), ?_, ?_, ?_⟩
  · intro h0
    refine extractBib_neg env urls ws av mv ?_
    rw [validationStep_failed_urls, h0]
    simp
  · intro h; simp [chooseAndRun, h]
  · intro h; simp [chooseAndRun, h]

/-- C10: `extract_identifiers_from_url` performs only Phase-1 pattern
extraction: its result depends only on the pattern extractor and the
validator score — never on the web-scraping or PDF components — and when
both validation flags are false, or the extraction yields zero identifiers,
it returns the pattern extractor's output unchanged (no validator is
queried: the result does not depend on `score` there either, being the raw
extractor output). -/
theorem C10_single_url_phase1_only (env env2 : Env) (url : String) (av mv : Bool)
    (hpe : env.patternExtract = env2.patternExtract)
    (hs : env.score = env2.score) :
    (extract_identifiers_from_url env url av mv
        = extract_identifiers_from_url env2 url av mv)
    ∧ (av = false → mv = false →
        extract_identifiers_from_url env url av mv = env.patternExtract url)
    ∧ (env.patternExtract url = [] →
        extract_identifiers_from_url env url av mv = env.patternExtract url) := by
  refine ⟨?_, ?_, ?_⟩
  · unfold extract_identifiers_from_url
    rw [hpe, hs]
  · rintro rfl rfl
    simp [extract_identifiers_from_url]
  · intro h
    simp [extract_identifiers_from_url, h]

/-- Witness for C10: the single-URL pipeline evaluated in `envW` at the
concrete URL `"u"` with validation off. -/
theorem C10_single_url_phase1_only_witness :
    envW.patternExtract = envW.patternExtract
    ∧ envW.score = envW.score
    ∧ ((extract_identifiers_from_url envW "u" false false
          = extract_identifiers_from_url envW "u" false false)
      ∧ (false = false → false = false →
          extract_identifiers_from_url envW "u" false false = envW.patternExtract "u")
      ∧ (envW.patternExtract "u" = [] →
          extract_identifiers_from_url envW "u" false false = envW.patternExtract "u")) :=
  ⟨rfl, rfl, C10_single_url_phase1_only envW envW "u" false false rfl rfl⟩

/-- C4: Phase 2 of the batch pipeline iterates over a snapshot of
`failed_urls` taken before any mutation; the newly found identifiers are
appended after the (validated) Phase-1 identifiers, preserving discovery
order; removal of recovered URLs is deferred until after the full sweep; and
for duplicate-free input the recovered URLs form a duplicate-free
subsequence of the snapshot — each is removed exactly once and does not
reappear in the final `failed_urls`. -/
theorem C4_snapshot_then_remove (env : Env) (urls : List String) (av mv : Bool)
    (hnodup : urls.Nodup) :
    ((extract_identifiers_from_bibliography env urls true av mv).identifiers
        = (afterValidation env av mv urls).identifiers ++ (bibSweep env av mv urls).1)
    ∧ ((extract_identifiers_from_bibliography env urls true av mv).failed_urls
        = removeSuccessful (afterValidation env av mv urls).failed_urls
            (bibSweep env av mv urls).2.1)
    ∧ List.Sublist (bibSweep env av mv urls).2.1
        (afterValidation env av mv urls).failed_urls
    ∧ (bibSweep env av mv urls).2.1.Nodup
    ∧ ∀ u ∈ (bibSweep env av mv urls).2.1,
        u ∉ (extract_identifiers_from_bibliography env urls true av mv).failed_urls := by
  have hfn : (afterValidation env av mv urls).failed_urls.Nodup := by
    rw [validationStep_failed_urls]
    exact extract_from_urls_nodup _ _ hnodup
  obtain ⟨s, hs, hsub⟩ := phase2Fold_succ_sublist env
    (afterValidation env av mv urls).failed_urls
    ([], [], (afterValidation env av mv urls).extraction_stats)
  have hs' : (bibSweep env av mv urls).2.1 = s := by simpa using hs
  cases hc : (true && !(afterValidation env av mv urls).failed_urls.isEmpty) with
  | true =>
    refine ⟨by rw [extractBib_pos env urls true av mv hc],
      by rw [extractBib_pos env urls true av mv hc],
      hs' ▸ hsub, hs' ▸ hsub.nodup hfn, ?_⟩
    intro u hu
    rw [extractBib_pos env urls true av mv hc]
    exact not_mem_removeSuccessful _ _ hfn hu
  | false =>
    have hempty : (afterValidation env av mv urls).failed_urls = [] := by
      simp only [Bool.true_and, Bool.not_eq_false'] at hc
      exact List.isEmpty_iff.mp hc
    have hsw : bibSweep env av mv urls
        = ([], [], (afterValidation env av mv urls).extraction_stats) := by
      show phase2Fold env (afterValidation env av mv urls).failed_urls _ = _
      rw [hempty]
      rfl
    rw [extractBib_neg env urls true av mv hc, hsw, hempty]
    simp [removeSuccessful]

/-- Witness for C4: the snapshot/deferred-removal conclusions at the
concrete duplicate-free input `["u"]` in `envW`. -/
theorem C4_snapshot_then_remove_witness :
    (["u"] : List String).Nodup
    ∧ (((extract_identifiers_from_bibliography envW ["u"] true true true).identifiers
          = (afterValidation envW true true ["u"]).identifiers
              ++ (bibSweep envW true true ["u"]).1)
      ∧ ((extract_identifiers_from_bibliography envW ["u"] true true true).failed_urls
          = removeSuccessful (afterValidation envW true true ["u"]).failed_urls
              (bibSweep envW true true ["u"]).2.1)
      ∧ List.Sublist (bibSweep envW true true ["u"]).2.1
          (afterValidation envW true true ["u"]).failed_urls
      ∧ (bibSweep envW true true ["u"]).2.1.Nodup
      ∧ ∀ u ∈ (bibSweep envW true true ["u"]).2.1,
          u ∉ (extract_identifiers_from_bibliography envW ["u"] true true true).failed_urls) :=
  ⟨List.nodup_singleton "u",
    C4_snapshot_then_remove envW ["u"] true true (List.nodup_singleton "u")⟩

/-- C8: After the batch pipeline completes, `doi_count`, `pmid_count` and
`pmc_count` equal exactly the number of identifiers of the corresponding
type in the result's identifier list (Phase 2 bumps the matching count once
per appended identifier). -/
theorem C8_type_counts (env : Env) (urls : List String) (ws av mv : Bool) :
    ((extract_identifiers_from_bibliography env urls ws av mv).extraction_stats.doi_count
        = countType .DOI (extract_identifiers_from_bibliography env urls ws av mv).identifiers)
    ∧ ((extract_identifiers_from_bibliography env urls ws av mv).extraction_stats.pmid_count
        = countType .PMID (extract_identifiers_from_bibliography env urls ws av mv).identifiers)
    ∧ ((extract_identifiers_from_bibliography env urls ws av mv).extraction_stats.pmc_count
        = countType .PMC (extract_identifiers_from_bibliography env urls ws av mv).identifiers) := by
  cases hc : (ws && !(afterValidation env av mv urls).failed_urls.isEmpty) with
  | false =>
    rw [extractBib_neg env urls ws av mv hc]
    refine ⟨?_, ?_, ?_⟩
    · rw [validationStep_stats, countType_validationStep]
      exact extract_from_urls_doi _ _
    · rw [validationStep_stats, countType_validationStep]
      exact extract_from_urls_pmid _ _
    · rw [validationStep_stats, countType_validationStep]
      exact extract_from_urls_pmc _ _
  | true =>
    have hcounts := phase2Fold_counts env (afterValidation env av mv urls).failed_urls
      ([], [], (afterValidation env av mv urls).extraction_stats)
    dsimp only at hcounts
    refine ⟨?_, ?_, ?_⟩
    · rw [extractBib_pos env urls ws av mv hc]
      dsimp only
      rw [addTypeCounts_fields]
      dsimp only
      rw [countType_append, countType_validationStep, hcounts.1,
        validationStep_stats, extract_from_urls_doi]
    · rw [extractBib_pos env urls ws av mv hc]
      dsimp only
      rw [addTypeCounts_fields]
      dsimp only
      rw [countType_append, countType_validationStep, hcounts.2.1,
        validationStep_stats, extract_from_urls_pmid]
    · rw [extractBib_pos env urls ws av mv hc]
      dsimp only
      rw [addTypeCounts_fields]
      dsimp only
      rw [countType_append, countType_validationStep, hcounts.2.2,
        validationStep_stats, extract_from_urls_pmc]

/-- C9: The validator-driven confidence update is applied only to Phase-1
identifiers: the batch result is the validated Phase-1 identifier list
followed by the Phase-2 identifiers exactly as their extractors returned
them — identifiers appended by Phase 2 keep their extractor-assigned
confidence and never pass through the validator, whatever the validation
flags. -/
theorem C9_phase2_not_validated (env : Env) (urls : List String) (av mv : Bool) :
    (extract_identifiers_from_bibliography env urls true av mv).identifiers
      = (afterValidation env av mv urls).identifiers
          ++ phase2Found env (afterValidation env av mv urls).failed_urls := by
  cases hc : (true && !(afterValidation env av mv urls).failed_urls.isEmpty) with
  | true =>
    rw [extractBib_pos env urls true av mv hc]
    dsimp only
    congr 1
    have h := phase2Fold_fst env (afterValidation env av mv urls).failed_urls
      ([], [], (afterValidation env av mv urls).extraction_stats)
    simpa using h
  | false =>
    have hempty : (afterValidation env av mv urls).failed_urls = [] := by
      simp only [Bool.true_and, Bool.not_eq_false'] at hc
      exact List.isEmpty_iff.mp hc
    rw [extractBib_neg env urls true av mv hc, hempty]
    simp [phase2Found]

end LitAgent
